import Mathlib

/-!
Shallow embedding of the Library-API repository (persiyana/Library-API).

The repository contains two iterations of the same Flask application:
the top-level tree (`models/`, `resources/`, wired up by `main.py`) and a
refactored tree under `src/` (`src/models/`, `src/resources/`).  Where the
two iterations differ we embed both; definitions for the refactored tree
carry the suffix `_v2`.

Database rows are embedded as structures, the SQLAlchemy session as a
`DB` record of row lists, and each HTTP resource method as a function
from a `DB` and its request parameters to a `(message, status, DB)`
triple mirroring the `return {'message': ...}, code` pattern of the
source.  Ratings are SQL `Integer` columns, embedded as `Int`;
`average_rating` is a `Float` column always assigned the exact quotient
`sum(ratings)/len(ratings)` of integers, embedded as `ℚ` (exact
arithmetic; every claim below concerns either this quotient itself or
values such as 0.0 and 4.5 that are exact in both representations).
-/

/-- Row of the `user_model` table (models/user_model.py): id, name, email,
password hash and role ("user" or "admin"). -/
structure UserRow where
  id : Nat
  name : String
  email : String
  password : String
  role : String
deriving DecidableEq

/-- Row of the `book_model` table (models/book_model.py). -/
structure BookRow where
  id : Nat
  title : String
  author : String
  genre : String
  description : Option String
  average_rating : ℚ
deriving DecidableEq

/-- Row of the `review_model` table (models/review_model.py); `rating` is a
nullable Integer column. -/
structure ReviewRow where
  id : Nat
  user_id : Nat
  book_id : Nat
  rating : Option Int
  review_text : Option String
deriving DecidableEq

/-- Row of the `user_library_model` table (models/user_library_model.py). -/
structure LibraryRow where
  id : Nat
  user_id : Nat
  book_id : Nat
  status : String
deriving DecidableEq

/-- The persistent state: the four tables of the application database. -/
structure DB where
  users : List UserRow
  books : List BookRow
  reviews : List ReviewRow
  library : List LibraryRow
deriving DecidableEq

/-- Primary-key lookup `UserModel.query.get(id)` / `db.session.get(UserModel, id)`. -/
def findUser (db : DB) (uid : Nat) : Option UserRow :=
  db.users.find? (fun u => u.id == uid)

/-- Primary-key lookup `BookModel.query.get(id)` / `db.session.get(BookModel, id)`. -/
def getBook (db : DB) (bid : Nat) : Option BookRow :=
  db.books.find? (fun b => b.id == bid)

/-- Lookup `ReviewModel.query.filter_by(user_id=..., book_id=...).first()`. -/
def findReview (db : DB) (uid bid : Nat) : Option ReviewRow :=
  db.reviews.find? (fun r => r.user_id == uid && r.book_id == bid)

/-- Lookup `UserLibraryModel.query.filter_by(user_id=..., book_id=...).first()`. -/
def findEntry (db : DB) (uid bid : Nat) : Option LibraryRow :=
  db.library.find? (fun e => e.user_id == uid && e.book_id == bid)

/-- Mutating an ORM object fetched by primary key updates the row it denotes:
the first list element with the given book id is rewritten by `f`. -/
def updateBookRow (bs : List BookRow) (bid : Nat) (f : BookRow → BookRow) :
    List BookRow :=
  match bs with
  | [] => []
  | b :: rest =>
    if b.id == bid then f b :: rest else b :: updateBookRow rest bid f

/-- Row update for the users table, analogous to `updateBookRow`; the source
promotes the first user returned by `filter_by(email=...)`. -/
def updateUserRowByEmail (us : List UserRow) (email : String)
    (f : UserRow → UserRow) : List UserRow :=
  match us with
  | [] => []
  | u :: rest =>
    if u.email == email then f u :: rest else u :: updateUserRowByEmail rest email f

/-- Row update for the library table: the first entry of the given user for
the given book is rewritten by `f`. -/
def updateEntryRow (es : List LibraryRow) (uid bid : Nat)
    (f : LibraryRow → LibraryRow) : List LibraryRow :=
  match es with
  | [] => []
  | e :: rest =>
    if e.user_id == uid && e.book_id == bid then f e :: rest
    else e :: updateEntryRow rest uid bid f

/-- Reviews of one book: `ReviewModel.query.filter_by(book_id=self.id).all()`. -/
def reviewsOf (db : DB) (bid : Nat) : List ReviewRow :=
  db.reviews.filter (fun r => r.book_id == bid)

/-- Non-null ratings of one book:
`[review.rating for review in reviews if review.rating is not None]`. -/
def ratingsOf (db : DB) (bid : Nat) : List Int :=
  (reviewsOf db bid).filterMap (fun r => r.rating)

/-- Stored average rating of a book, read back through a primary-key lookup. -/
def bookAverage (db : DB) (bid : Nat) : Option ℚ :=
  (getBook db bid).map (fun b => b.average_rating)

/-- BookModel.update_average_rating (models/book_model.py, lines 65-78):
reads the book's reviews, keeps the non-null ratings, stores
`sum(ratings)/len(ratings) if ratings else 0.0` on the book row and commits.
It cannot fail. -/
def update_average_rating (db : DB) (b : BookRow) : DB :=
  let ratings := ratingsOf db b.id
  let avg : ℚ := if ratings.isEmpty then 0
                 else ((ratings.sum : Int) : ℚ) / (ratings.length : ℚ)
  { db with
      books := updateBookRow db.books b.id
                 (fun bk => { bk with average_rating := avg }) }

/-- BookModel.update_average_rating of the refactored tree
(src/models/book_model.py under src/, lines 58-82): identical computation,
except that a book with an empty review list makes it raise
`ValueError(f"No reviews found for the book with ID {self.id}.")` before
anything is stored.  The raise is embedded as `Except.error` carrying the
exception message; the `SQLAlchemyError` branch models an external storage
failure and is outside this embedding. -/
def update_average_rating_v2 (db : DB) (b : BookRow) : Except String DB :=
  let reviews := reviewsOf db b.id
  if reviews.isEmpty then
    Except.error ("No reviews found for the book with ID " ++ toString b.id ++ ".")
  else
    let ratings := reviews.filterMap (fun r => r.rating)
    let avg : ℚ := if ratings.isEmpty then 0
                   else ((ratings.sum : Int) : ℚ) / (ratings.length : ℚ)
    Except.ok { db with
                  books := updateBookRow db.books b.id
                             (fun bk => { bk with average_rating := avg }) }

/-- Modelled from the spec (§4.4, §8): the arithmetic mean of a list of
ratings, `sum(ri)/k` when `k > 0` and `0.0` when `k = 0`.  This is the
spec-side description the stored value is compared against. -/
def specAverage (rs : List Int) : ℚ :=
  if rs.length = 0 then 0 else ((rs.sum : Int) : ℚ) / (rs.length : ℚ)

/-- Autoincrement primary key for an inserted review row: one more than the
largest id in the table (SQLite rowid behaviour; the claims never depend on
the concrete id values). -/
def freshReviewId (db : DB) : Nat :=
  db.reviews.foldr (fun r m => max m (r.id + 1)) 1

/-- Autoincrement primary key for an inserted library row. -/
def freshEntryId (db : DB) : Nat :=
  db.library.foldr (fun e m => max m (e.id + 1)) 1

/-- BookReview.post (resources/book_review.py, lines 44-102): authenticated
user submits a review for `book_id`.  Checks, in source order: user exists
(403), book exists (404), rating in [1,5] (400), no existing review by this
user for this book (400); then inserts the review, commits, and calls
`book.update_average_rating()` before returning 201. -/
def bookReviewPost (db : DB) (uid bid : Nat) (rating : Int)
    (review_text : Option String) : String × Nat × DB :=
  match findUser db uid with
  | none => ("Unauthorized", 403, db)
  | some _ =>
    match getBook db bid with
    | none => ("Book not found", 404, db)
    | some book =>
      if rating < 1 || rating > 5 then
        ("Rating must be between 1 and 5", 400, db)
      else if (findReview db uid bid).isSome then
        ("You have already reviewed this book", 400, db)
      else
        let r : ReviewRow :=
          { id := freshReviewId db, user_id := uid, book_id := bid,
            rating := some rating, review_text := review_text }
        let db2 : DB := { db with reviews := db.reviews ++ [r] }
        ("Review added successfully", 201, update_average_rating db2 book)

/-- Truthiness of a parsed optional string argument: `if data['field']:`
is false for a missing argument (None) and for the empty string. -/
def truthy : Option String → Bool
  | none => false
  | some s => !(s == "")

/-- Field updates of Books.patch (resources/books.py, lines 175-182): each
of title/author/genre/description overwrites the stored field only when
provided and non-empty. -/
def patchFields (title author genre description : Option String)
    (b : BookRow) : BookRow :=
  let b := if truthy title then { b with title := title.getD b.title } else b
  let b := if truthy author then { b with author := author.getD b.author } else b
  let b := if truthy genre then { b with genre := genre.getD b.genre } else b
  if truthy description then { b with description := description } else b

/-- Books.patch (resources/books.py, lines 140-185; the refactored tree's
Books.patch is line-for-line the same logic): admin-only partial update of a
book; a missing book id gives 404.  The Flask handler returns a bare dict on
success, which is HTTP 200. -/
def booksPatch (db : DB) (uid bid : Nat)
    (title author genre description : Option String) : String × Nat × DB :=
  match findUser db uid with
  | none => ("Unauthorized access", 403, db)
  | some u =>
    if u.role != "admin" then ("Unauthorized access", 403, db)
    else
      match getBook db bid with
      | none => ("No matching book found", 404, db)
      | some _ =>
        ("Book updated successfully", 200,
          { db with
              books := updateBookRow db.books bid
                         (patchFields title author genre description) })

/-- Books.delete (resources/books.py, lines 187-217): admin-only delete.
`db.session.delete(book)` removes the book row; the `reviews` relationship
in models/book_model.py and the `user_libraries` backref in
models/user_library_model.py declare no delete cascade, so no Review or
LibraryEntry row is deleted with the book. -/
def booksDelete (db : DB) (uid bid : Nat) : String × Nat × DB :=
  match findUser db uid with
  | none => ("Unauthorized", 403, db)
  | some u =>
    if u.role != "admin" then ("Unauthorized", 403, db)
    else
      match getBook db bid with
      | none => ("Book not found", 404, db)
      | some _ =>
        ("Book deleted successfully", 200,
          { db with books := db.books.filter (fun b => !(b.id == bid)) })

/-- Books.delete of the refactored tree (src/resources/books.py under src/,
lines 129-151): explicitly deletes every UserLibraryModel row for the book,
then deletes the book; the refactored BookModel declares
`cascade='all, delete-orphan'` on both its `reviews` and `user_libraries`
relationships, so the book's reviews (and any remaining library rows) are
deleted with it. -/
def booksDelete_v2 (db : DB) (uid bid : Nat) : String × Nat × DB :=
  match findUser db uid with
  | none => ("Unauthorized", 403, db)
  | some u =>
    if u.role != "admin" then ("Unauthorized", 403, db)
    else
      match getBook db bid with
      | none => ("Book not found", 404, db)
      | some _ =>
        ("Book deleted successfully", 200,
          { db with
              books := db.books.filter (fun b => !(b.id == bid)),
              reviews := db.reviews.filter (fun r => !(r.book_id == bid)),
              library := db.library.filter (fun e => !(e.book_id == bid)) })

/-- Status code of Books.get for a single id (resources/books.py, lines
44-80): 404 when the primary-key lookup misses, 200 otherwise. -/
def booksGetStatus (db : DB) (bid : Nat) : Nat :=
  match getBook db bid with
  | none => 404
  | some _ => 200

/-- Status whitelist of the top-level tree's UserLibrary resource
(resources/user_library.py, lines 103 and 150): the three Bulgarian
status strings. -/
def statusValid (s : String) : Bool :=
  (["Прочетени", "Чета в момента", "Искам да прочета"] : List String).contains s

/-- Status whitelist of the refactored tree's UserLibrary resource
(src/resources/user_library.py under src/, lines 59 and 91). -/
def statusValid_v2 (s : String) : Bool :=
  (["completed", "wishlist", "reading"] : List String).contains s

/-- UserLibrary.post (resources/user_library.py, lines 75-119): validates
the status against the whitelist (400), rejects a duplicate (user, book)
entry (400), otherwise inserts the entry and returns 201. -/
def userLibraryPost (db : DB) (uid bid : Nat) (status : String) :
    String × Nat × DB :=
  if !(statusValid status) then ("Invalid status", 400, db)
  else if (findEntry db uid bid).isSome then
    ("Book already in your library", 400, db)
  else
    let e : LibraryRow :=
      { id := freshEntryId db, user_id := uid, book_id := bid, status := status }
    ("Book added to library with status " ++ status, 201,
      { db with library := db.library ++ [e] })

/-- UserLibrary.post of the refactored tree (src/resources/user_library.py
under src/, lines 44-75): same logic with the English status whitelist. -/
def userLibraryPost_v2 (db : DB) (uid bid : Nat) (status : String) :
    String × Nat × DB :=
  if !(statusValid_v2 status) then ("Invalid status", 400, db)
  else if (findEntry db uid bid).isSome then
    ("Book already in your library", 400, db)
  else
    let e : LibraryRow :=
      { id := freshEntryId db, user_id := uid, book_id := bid, status := status }
    ("Book added to library with status " ++ status, 201,
      { db with library := db.library ++ [e] })

/-- UserLibrary.patch (resources/user_library.py, lines 121-161): validates
`new_status` first (400), then looks the entry up (404), then updates its
status in place and returns 200. -/
def userLibraryPatch (db : DB) (uid bid : Nat) (new_status : String) :
    String × Nat × DB :=
  if !(statusValid new_status) then ("Invalid status", 400, db)
  else
    match findEntry db uid bid with
    | none => ("Book not found in your library", 404, db)
    | some _ =>
      ("Book status updated to " ++ new_status, 200,
        { db with
            library := updateEntryRow db.library uid bid
                         (fun e => { e with status := new_status }) })

/-- UserLibrary.patch of the refactored tree (src/resources/user_library.py
under src/, lines 77-102): same check order with the English whitelist. -/
def userLibraryPatch_v2 (db : DB) (uid bid : Nat) (new_status : String) :
    String × Nat × DB :=
  if !(statusValid_v2 new_status) then ("Invalid status", 400, db)
  else
    match findEntry db uid bid with
    | none => ("Book not found in your library", 404, db)
    | some _ =>
      ("Book status updated to " ++ new_status, 200,
        { db with
            library := updateEntryRow db.library uid bid
                         (fun e => { e with status := new_status }) })

/-- PromoteToAdmin.post (resources/promote_to_admin.py, lines 32-76; the
refactored tree's copy is identical): the actor must exist (the source
`assert isinstance(current_user, UserModel)` otherwise fails, a 500) and be
an admin (403); the target is the first user with the given email (404 when
none); an already-admin target is rejected (400); otherwise the target's
role is set to "admin". -/
def promoteToAdmin (db : DB) (actorId : Nat) (email : String) :
    String × Nat × DB :=
  match findUser db actorId with
  | none => ("AssertionError: User must be an instance of UserModel", 500, db)
  | some actor =>
    if actor.role != "admin" then
      ("You must be an admin to perform this action", 403, db)
    else
      match db.users.find? (fun u => u.email == email) with
      | none => ("User not found", 404, db)
      | some target =>
        if target.role == "admin" then
          ("This user is already an admin", 400, db)
        else
          ("User " ++ email ++ " has been promoted to admin", 200,
            { db with
                users := updateUserRowByEmail db.users email
                           (fun u => { u with role := "admin" }) })

theorem find?_updateBookRow (bs : List BookRow) (bid : Nat) (f : BookRow → BookRow)
    (hf : ∀ bk, (f bk).id = bk.id) :
    (updateBookRow bs bid f).find? (fun bk => bk.id == bid)
      = (bs.find? (fun bk => bk.id == bid)).map f := by
  induction bs with
  | nil => rfl
  | cons b rest ih =>
    simp only [updateBookRow]
    by_cases h : (b.id == bid) = true
    · have hfb : ((f b).id == bid) = true := by rw [hf]; exact h
      rw [if_pos h,
          @List.find?_cons_of_pos _ (fun bk => bk.id == bid) (f b) rest hfb,
          @List.find?_cons_of_pos _ (fun bk => bk.id == bid) b rest h]
      rfl
    · rw [if_neg h,
          @List.find?_cons_of_neg _ (fun bk => bk.id == bid) b
            (updateBookRow rest bid f) h,
          @List.find?_cons_of_neg _ (fun bk => bk.id == bid) b rest h, ih]

theorem mem_updateBookRow (bs : List BookRow) (bid : Nat) (f : BookRow → BookRow)
    (b2 : BookRow) (h2 : b2 ∈ bs) (hne : b2.id ≠ bid) :
    b2 ∈ updateBookRow bs bid f := by
  induction bs with
  | nil => cases h2
  | cons b rest ih =>
    simp only [updateBookRow]
    rcases List.mem_cons.mp h2 with rfl | h2'
    · rw [if_neg (by simpa using hne)]
      exact List.mem_cons_self _ _
    · by_cases h : (b.id == bid) = true
      · rw [if_pos h]; exact List.mem_cons_of_mem _ h2'
      · rw [if_neg h]; exact List.mem_cons_of_mem _ (ih h2')

theorem mem_of_mem_updateBookRow (bs : List BookRow) (bid : Nat)
    (f : BookRow → BookRow) (hf : ∀ bk, (f bk).id = bk.id) (b2 : BookRow)
    (h2 : b2 ∈ updateBookRow bs bid f) (hne : b2.id ≠ bid) : b2 ∈ bs := by
  induction bs with
  | nil => simp [updateBookRow] at h2
  | cons b rest ih =>
    simp only [updateBookRow] at h2
    by_cases h : (b.id == bid) = true
    · rw [if_pos h] at h2
      rcases List.mem_cons.mp h2 with rfl | h2'
      · exact absurd ((hf b).trans (by simpa using h)) hne
      · exact List.mem_cons_of_mem _ h2'
    · rw [if_neg h] at h2
      rcases List.mem_cons.mp h2 with rfl | h2'
      · exact List.mem_cons_self _ _
      · exact List.mem_cons_of_mem _ (ih h2')

theorem updateBookRow_twice (bs : List BookRow) (bid : Nat) (f : BookRow → BookRow)
    (hf : ∀ bk, (f bk).id = bk.id) (hff : ∀ bk, f (f bk) = f bk) :
    updateBookRow (updateBookRow bs bid f) bid f = updateBookRow bs bid f := by
  induction bs with
  | nil => rfl
  | cons b rest ih =>
    simp only [updateBookRow]
    by_cases h : (b.id == bid) = true
    · rw [if_pos h]
      simp only [updateBookRow]
      have hfb : ((f b).id == bid) = true := by rw [hf]; exact h
      rw [if_pos hfb, hff]
    · rw [if_neg h]
      simp only [updateBookRow]
      rw [if_neg h, ih]

theorem ifEmpty_eq_specAverage (rs : List Int) :
    (if rs.isEmpty then (0 : ℚ) else ((rs.sum : Int) : ℚ) / (rs.length : ℚ))
      = specAverage rs := by
  cases rs <;> simp [specAverage]

theorem reviews_update_average_rating (db : DB) (b : BookRow) :
    (update_average_rating db b).reviews = db.reviews := rfl

theorem bookAverage_setAvg (db : DB) (bid : Nat) (q : ℚ) :
    bookAverage
      { db with
          books := updateBookRow db.books bid
                     (fun bk => { bk with average_rating := q }) } bid
      = (bookAverage db bid).map (fun _ => q) := by
  simp only [bookAverage, getBook]
  rw [find?_updateBookRow db.books bid (fun bk => { bk with average_rating := q })
        (fun bk => rfl)]
  cases db.books.find? (fun bk => bk.id == bid) <;> rfl

theorem bookAverage_update_average_rating (db : DB) (b : BookRow) :
    bookAverage (update_average_rating db b) b.id
      = (bookAverage db b.id).map (fun _ => specAverage (ratingsOf db b.id)) := by
  calc bookAverage (update_average_rating db b) b.id
      = (bookAverage db b.id).map
          (fun _ => if (ratingsOf db b.id).isEmpty then (0 : ℚ)
            else (((ratingsOf db b.id).sum : Int) : ℚ) / ((ratingsOf db b.id).length : ℚ)) :=
        bookAverage_setAvg db b.id _
    _ = (bookAverage db b.id).map (fun _ => specAverage (ratingsOf db b.id)) := by
        rw [ifEmpty_eq_specAverage]

theorem update_average_rating_v2_ok (db : DB) (b : BookRow) (db2 : DB)
    (h : update_average_rating_v2 db b = Except.ok db2) :
    db2 = update_average_rating db b ∧ (reviewsOf db b.id).isEmpty = false := by
  unfold update_average_rating_v2 at h
  by_cases he : (reviewsOf db b.id).isEmpty = true
  · rw [if_pos he] at h; cases h
  · rw [if_neg he] at h
    refine ⟨?_, by simpa using he⟩
    cases h
    rfl

theorem reviewsOf_update_average_rating (db : DB) (b : BookRow) (bid : Nat) :
    reviewsOf (update_average_rating db b) bid = reviewsOf db bid := rfl

theorem update_average_rating_twice (db : DB) (b : BookRow) :
    update_average_rating (update_average_rating db b) b
      = update_average_rating db b := by
  have h := updateBookRow_twice db.books b.id
    (fun bk => { bk with average_rating :=
      if (ratingsOf db b.id).isEmpty then (0 : ℚ)
      else (((ratingsOf db b.id).sum : Int) : ℚ) / ((ratingsOf db b.id).length : ℚ) })
    (fun bk => rfl) (fun bk => rfl)
  exact congrArg (fun bs => DB.mk db.users bs db.reviews db.library) h

theorem update_average_rating_v2_of_nonempty (db : DB) (b : BookRow)
    (he : (reviewsOf db b.id).isEmpty = false) :
    update_average_rating_v2 db b = Except.ok (update_average_rating db b) := by
  unfold update_average_rating_v2
  rw [if_neg (by simp [he])]
  rfl

/-- Sample data: the book of spec Scenario A/B and two reader accounts. -/
def duneBook : BookRow :=
  { id := 1, title := "Dune", author := "Frank Herbert", genre := "SciFi",
    description := none, average_rating := 0 }

/-- Sample state after two users reviewed `duneBook` with ratings 4 and 5
(stored average not yet recomputed). -/
def dbTwoReviews : DB :=
  { users := [{ id := 1, name := "Alice", email := "a@x.com", password := "h1",
                role := "user" },
              { id := 2, name := "Bob", email := "b@x.com", password := "h2",
                role := "user" }],
    books := [duneBook],
    reviews := [{ id := 1, user_id := 1, book_id := 1, rating := some 4,
                  review_text := some "Great book!" },
                { id := 2, user_id := 2, book_id := 1, rating := some 5,
                  review_text := none }],
    library := [] }

/-- The state `dbTwoReviews` after recomputing `duneBook`'s average. -/
def dbTwoReviewsAfter : DB :=
  { dbTwoReviews with
      books := [({ duneBook with average_rating := 9/2 } : BookRow)] }

/-- C1: after every call to the rating aggregator's recompute for a book, the
book's stored average_rating equals sum(ri)/k over the k non-null ratings of
that book's reviews, and 0.0 when k = 0, for every book and review set.
Proved for both variants: the top-level `update_average_rating` always stores
`specAverage` of the book's non-null ratings (and leaves the review set
unchanged); the refactored `update_average_rating_v2`, whenever it returns
a state at all, stores the same value. -/
theorem recompute_stores_spec_average (db : DB) (b : BookRow) :
    bookAverage (update_average_rating db b) b.id
      = (bookAverage db b.id).map (fun _ => specAverage (ratingsOf db b.id))
    ∧ (update_average_rating db b).reviews = db.reviews
    ∧ ∀ db2, update_average_rating_v2 db b = Except.ok db2 →
        bookAverage db2 b.id
          = (bookAverage db b.id).map (fun _ => specAverage (ratingsOf db b.id))
        ∧ db2.reviews = db.reviews :=
  ⟨bookAverage_update_average_rating db b, rfl, fun db2 h => by
    obtain ⟨rfl, -⟩ := update_average_rating_v2_ok db b db2 h
    exact ⟨bookAverage_update_average_rating db b, rfl⟩⟩

/-- Witness for C1 at a concrete state: recomputing `duneBook` over the
ratings 4 and 5 stores 9/2 (in both variants). -/
theorem recompute_stores_spec_average_witness :
    update_average_rating_v2 dbTwoReviews duneBook = Except.ok dbTwoReviewsAfter
    ∧ bookAverage dbTwoReviewsAfter 1 = some (9/2 : ℚ) := by
  have h : update_average_rating_v2 dbTwoReviews duneBook
      = Except.ok dbTwoReviewsAfter := by
    simp [update_average_rating_v2, reviewsOf, dbTwoReviews, duneBook,
          dbTwoReviewsAfter, updateBookRow, ratingsOf]
  refine ⟨h, ?_⟩
  have h2 :=
    ((recompute_stores_spec_average dbTwoReviews duneBook).2.2 dbTwoReviewsAfter h).1
  show bookAverage dbTwoReviewsAfter duneBook.id = some (9/2 : ℚ)
  rw [h2]
  norm_num [bookAverage, getBook, dbTwoReviews, duneBook, ratingsOf, reviewsOf,
            specAverage, List.filterMap_cons]

/-- A book with zero reviews whose stored average (settable through the
`BookModel.__init__` `average_rating` key) is not yet 0. -/
def staleBook : BookRow :=
  { id := 1, title := "Stale", author := "Nobody", genre := "None",
    description := none, average_rating := 5 }

/-- State containing `staleBook` and no reviews at all. -/
def dbNoReviews : DB :=
  { users := [], books := [staleBook], reviews := [], library := [] }

/-- C2: recompute on a book with zero reviews.  The top-level
`update_average_rating` stores 0.0 as the claim (and both variants' own
docstring: "If there are no ratings, the average rating is set to 0.0")
requires; the refactored `update_average_rating_v2` instead raises
`ValueError` and stores nothing, contradicting the claim, the docstring and
the spec's mandated behaviour. -/
theorem recompute_zero_reviews_eval :
    update_average_rating_v2 dbNoReviews staleBook
      = Except.error "No reviews found for the book with ID 1."
    ∧ bookAverage (update_average_rating dbNoReviews staleBook) 1 = some 0 := by
  constructor
  · rfl
  · rfl

/-- C3: recompute is idempotent.  For the top-level variant a second call on
the unchanged state is a no-op on the whole database; for the refactored
variant, whenever the first call succeeds with state `db2`, a second call on
`db2` succeeds and returns `db2` itself. -/
theorem recompute_idempotent (db : DB) (b : BookRow) :
    update_average_rating (update_average_rating db b) b = update_average_rating db b
    ∧ ∀ db2, update_average_rating_v2 db b = Except.ok db2 →
        update_average_rating_v2 db2 b = Except.ok db2 := by
  refine ⟨update_average_rating_twice db b, fun db2 h => ?_⟩
  obtain ⟨rfl, he⟩ := update_average_rating_v2_ok db b db2 h
  have he2 : (reviewsOf (update_average_rating db b) b.id).isEmpty = false := by
    rw [reviewsOf_update_average_rating]; exact he
  rw [update_average_rating_v2_of_nonempty _ b he2, update_average_rating_twice]

/-- Witness for C3 at a concrete state: recomputing `duneBook` twice over the
unchanged two-review state gives the same stored state both times. -/
theorem recompute_idempotent_witness :
    update_average_rating (update_average_rating dbTwoReviews duneBook) duneBook
      = update_average_rating dbTwoReviews duneBook
    ∧ update_average_rating_v2 dbTwoReviewsAfter duneBook
      = Except.ok dbTwoReviewsAfter := by
  constructor
  · exact (recompute_idempotent dbTwoReviews duneBook).1
  · refine (recompute_idempotent dbTwoReviews duneBook).2 dbTwoReviewsAfter ?_
    simp [update_average_rating_v2, reviewsOf, dbTwoReviews, duneBook,
          dbTwoReviewsAfter, updateBookRow, ratingsOf]


/-- C4: every successful review POST recomputes the book's average before
returning, so the stored average already reflects the new review: whenever
`bookReviewPost` returns 201, the book's non-null rating list has gained
exactly the submitted rating, and the stored average equals `specAverage`
of the post-state rating list. -/
theorem add_review_aggregates (db : DB) (uid bid : Nat) (rating : Int)
    (text : Option String) (msg : String) (db' : DB)
    (h : bookReviewPost db uid bid rating text = (msg, 201, db')) :
    ratingsOf db' bid = ratingsOf db bid ++ [rating]
    ∧ bookAverage db' bid = some (specAverage (ratingsOf db' bid)) := by
  unfold bookReviewPost at h
  split at h
  · simp at h
  · split at h
    · simp at h
    · next book heqbook =>
      split at h
      · simp at h
      · split at h
        · simp at h
        · next hex =>
            simp only [Prod.mk.injEq] at h
            obtain ⟨-, -, hdb⟩ := h
            subst hdb
            have hbid : book.id = bid := by
              unfold getBook at heqbook
              simpa using List.find?_some heqbook
            have hr2 : ratingsOf (DB.mk db.users db.books (db.reviews ++
                [{ id := freshReviewId db, user_id := uid, book_id := bid,
                   rating := some rating, review_text := text }]) db.library) bid
                = ratingsOf db bid ++ [rating] := by
              simp [ratingsOf, reviewsOf, List.filter_append, List.filterMap_append]
            have hmain := bookAverage_update_average_rating
              (DB.mk db.users db.books (db.reviews ++
                [{ id := freshReviewId db, user_id := uid, book_id := bid,
                   rating := some rating, review_text := text }]) db.library) book
            rw [hbid] at hmain
            have hget : getBook (DB.mk db.users db.books (db.reviews ++
                [{ id := freshReviewId db, user_id := uid, book_id := bid,
                   rating := some rating, review_text := text }]) db.library) bid
                = some book := heqbook
            refine ⟨hr2, ?_⟩
            rw [hmain]
            have hba : bookAverage (DB.mk db.users db.books (db.reviews ++
                [{ id := freshReviewId db, user_id := uid, book_id := bid,
                   rating := some rating, review_text := text }]) db.library) bid
                = some book.average_rating := by
              simp [bookAverage, hget]
            rw [hba]
            rfl

/-- State of spec Scenario B after the first of two reviews: Alice has
reviewed `duneBook` with rating 4 and the average has been recomputed. -/
def dbScenarioB1 : DB :=
  { users := dbTwoReviews.users,
    books := [({ duneBook with average_rating := 4 } : BookRow)],
    reviews := [{ id := 1, user_id := 1, book_id := 1, rating := some 4,
                  review_text := none }],
    library := [] }

/-- State of spec Scenario B after Bob's rating-5 review of the same book. -/
def dbScenarioB2 : DB :=
  { users := dbTwoReviews.users,
    books := [({ duneBook with average_rating := 9/2 } : BookRow)],
    reviews := [{ id := 1, user_id := 1, book_id := 1, rating := some 4,
                  review_text := none },
                { id := 2, user_id := 2, book_id := 1, rating := some 5,
                  review_text := none }],
    library := [] }

/-- Witness for C4, spec Scenario B: the second of two reviews (ratings 4
then 5) returns 201 and leaves the stored average at 9/2 = 4.5. -/
theorem add_review_aggregates_witness :
    bookReviewPost dbScenarioB1 2 1 5 none
      = ("Review added successfully", 201, dbScenarioB2)
    ∧ bookAverage dbScenarioB2 1 = some (9/2 : ℚ)
    ∧ ratingsOf dbScenarioB2 1 = ratingsOf dbScenarioB1 1 ++ [5] := by
  have h : bookReviewPost dbScenarioB1 2 1 5 none
      = ("Review added successfully", 201, dbScenarioB2) := by
    simp [bookReviewPost, findUser, getBook, findReview, freshReviewId,
          dbScenarioB1, dbScenarioB2, duneBook, dbTwoReviews,
          update_average_rating, ratingsOf, reviewsOf, updateBookRow,
          List.filterMap_cons]
  refine ⟨h, ?_, (add_review_aggregates dbScenarioB1 2 1 5 none _ _ h).1⟩
  have h2 := (add_review_aggregates dbScenarioB1 2 1 5 none _ _ h).2
  rw [h2]
  norm_num [ratingsOf, reviewsOf, dbScenarioB2, specAverage, List.filterMap_cons]

/-- An admin, one book (id 7), one review and one library entry for it. -/
def dbCascade : DB :=
  { users := [{ id := 1, name := "Carol", email := "c@x.com", password := "h",
                role := "admin" }],
    books := [{ id := 7, title := "Doomed", author := "X", genre := "Y",
                description := none, average_rating := 4 }],
    reviews := [{ id := 1, user_id := 1, book_id := 7, rating := some 4,
                  review_text := none }],
    library := [{ id := 1, user_id := 1, book_id := 7,
                  status := "Прочетени" }] }

/-- C5: deleting a book and its dependents.  The top-level Books.delete
removes only the book row: the review and library rows referencing book 7
survive the 200 response and dangle (the claim's cascade fails there).  The
refactored Books.delete removes both dependents, after which the book lookup
(and so GET) is 404.  Both variants answer 404, unchanged, for an absent
id. -/
theorem delete_book_cascade_eval :
    (booksDelete dbCascade 1 7).2.1 = 200
    ∧ getBook (booksDelete dbCascade 1 7).2.2 7 = none
    ∧ (booksDelete dbCascade 1 7).2.2.reviews
        = [{ id := 1, user_id := 1, book_id := 7, rating := some 4,
             review_text := none }]
    ∧ (booksDelete dbCascade 1 7).2.2.library
        = [{ id := 1, user_id := 1, book_id := 7, status := "Прочетени" }]
    ∧ (booksDelete_v2 dbCascade 1 7).2.1 = 200
    ∧ (booksDelete_v2 dbCascade 1 7).2.2.reviews = []
    ∧ (booksDelete_v2 dbCascade 1 7).2.2.library = []
    ∧ booksGetStatus (booksDelete_v2 dbCascade 1 7).2.2 7 = 404
    ∧ booksDelete dbCascade 1 99 = ("Book not found", 404, dbCascade)
    ∧ booksDelete_v2 dbCascade 1 99 = ("Book not found", 404, dbCascade) := by
  refine ⟨rfl, rfl, rfl, rfl, rfl, rfl, rfl, rfl, rfl, rfl⟩

/-- C6: for every user and book, a second review for a (user, book) pair
that already has one is rejected with the conflict message and HTTP 400 and
the state — hence the review table — is unchanged; likewise a second library
entry for a (user, book) pair, in both library variants.  (The review POST
reaches its duplicate check after validating the caller, the book and the
1-5 rating; the library POSTs after validating the status.) -/
theorem duplicate_conflict (db : DB) (uid bid : Nat) (rating : Int)
    (text : Option String) (s : String)
    (hu : (findUser db uid).isSome = true) (hb : (getBook db bid).isSome = true)
    (h1 : 1 ≤ rating) (h5 : rating ≤ 5) :
    ((findReview db uid bid).isSome = true →
      bookReviewPost db uid bid rating text
        = ("You have already reviewed this book", 400, db))
    ∧ ((findEntry db uid bid).isSome = true → statusValid s = true →
      userLibraryPost db uid bid s = ("Book already in your library", 400, db))
    ∧ ((findEntry db uid bid).isSome = true → statusValid_v2 s = true →
      userLibraryPost_v2 db uid bid s = ("Book already in your library", 400, db)) := by
  refine ⟨fun hex => ?_, fun hex hs => ?_, fun hex hs => ?_⟩
  · obtain ⟨u, hu'⟩ := Option.isSome_iff_exists.mp hu
    obtain ⟨book, hb'⟩ := Option.isSome_iff_exists.mp hb
    have hno1 : ¬ (rating < 1) := by omega
    have hno5 : ¬ (rating > 5) := by omega
    simp [bookReviewPost, hu', hb', hno1, hno5, hex]
  · simp [userLibraryPost, hs, hex]
  · simp [userLibraryPost_v2, hs, hex]

/-- One existing review and one existing library entry per variant for the
(user 1, book 1) and (user 2, book 1) pairs. -/
def dbConflict : DB :=
  { users := dbTwoReviews.users, books := [duneBook],
    reviews := [{ id := 1, user_id := 1, book_id := 1, rating := some 4,
                  review_text := none }],
    library := [{ id := 1, user_id := 1, book_id := 1, status := "Прочетени" },
                { id := 2, user_id := 2, book_id := 1, status := "reading" }] }

/-- Witness for C6: user 1's second review of book 1 and second library
entries (one per variant's status spelling) are all rejected with 400 and no
state change. -/
theorem duplicate_conflict_witness :
    bookReviewPost dbConflict 1 1 3 none
      = ("You have already reviewed this book", 400, dbConflict)
    ∧ userLibraryPost dbConflict 1 1 "Прочетени"
      = ("Book already in your library", 400, dbConflict)
    ∧ userLibraryPost_v2 dbConflict 2 1 "reading"
      = ("Book already in your library", 400, dbConflict) :=
  ⟨(duplicate_conflict dbConflict 1 1 3 none "Прочетени" (by decide) (by decide)
      (by decide) (by decide)).1 (by decide),
   (duplicate_conflict dbConflict 1 1 3 none "Прочетени" (by decide) (by decide)
      (by decide) (by decide)).2.1 (by decide) (by decide),
   (duplicate_conflict dbConflict 2 1 3 none "reading" (by decide) (by decide)
      (by decide) (by decide)).2.2 (by decide) (by decide)⟩

/-- Counterexample to C7: "reading" belongs to the claimed status set
{reading, completed, wishlist}, yet the top-level library resource's status
check rejects it, so its add and update fail with Invalid status (400)
instead of passing the check. -/
theorem library_status_counterexample :
    statusValid "reading" = false
    ∧ userLibraryPost dbConflict 1 2 "reading"
      = ("Invalid status", 400, dbConflict)
    ∧ userLibraryPatch dbConflict 1 2 "reading"
      = ("Invalid status", 400, dbConflict) := by
  refine ⟨by decide, rfl, rfl⟩

/-- C7 amended: each variant's library add and update accept exactly a fixed
three-value status set — {completed, wishlist, reading} in the refactored
tree (as the claim states) but the Bulgarian spellings
{Прочетени, Чета в момента, Искам да прочета} in the top-level tree — and
for every status outside the variant's own set both operations fail with
Invalid status (400) and change nothing. -/
theorem library_status_whitelists (db : DB) (uid bid : Nat) (s : String) :
    (statusValid_v2 s = true ↔ s = "completed" ∨ s = "wishlist" ∨ s = "reading")
    ∧ (statusValid s = true ↔
        s = "Прочетени" ∨ s = "Чета в момента" ∨ s = "Искам да прочета")
    ∧ (statusValid_v2 s = false →
        userLibraryPost_v2 db uid bid s = ("Invalid status", 400, db)
        ∧ userLibraryPatch_v2 db uid bid s = ("Invalid status", 400, db))
    ∧ (statusValid s = false →
        userLibraryPost db uid bid s = ("Invalid status", 400, db)
        ∧ userLibraryPatch db uid bid s = ("Invalid status", 400, db)) := by
  refine ⟨?_, ?_, fun hs => ?_, fun hs => ?_⟩
  · simp [statusValid_v2, List.contains]
  · simp [statusValid, List.contains]
  · exact ⟨by simp [userLibraryPost_v2, hs], by simp [userLibraryPatch_v2, hs]⟩
  · exact ⟨by simp [userLibraryPost, hs], by simp [userLibraryPatch, hs]⟩

/-- Witness for the amended C7 at the out-of-set status "junk": both
variants' add and update reject it with 400 and change nothing. -/
theorem library_status_whitelists_witness :
    statusValid_v2 "junk" = false
    ∧ userLibraryPost_v2 dbConflict 1 2 "junk"
      = ("Invalid status", 400, dbConflict)
    ∧ userLibraryPatch_v2 dbConflict 1 2 "junk"
      = ("Invalid status", 400, dbConflict)
    ∧ statusValid "junk" = false
    ∧ userLibraryPost dbConflict 1 2 "junk"
      = ("Invalid status", 400, dbConflict)
    ∧ userLibraryPatch dbConflict 1 2 "junk"
      = ("Invalid status", 400, dbConflict) :=
  ⟨by decide,
   ((library_status_whitelists dbConflict 1 2 "junk").2.2.1 (by decide)).1,
   ((library_status_whitelists dbConflict 1 2 "junk").2.2.1 (by decide)).2,
   by decide,
   ((library_status_whitelists dbConflict 1 2 "junk").2.2.2 (by decide)).1,
   ((library_status_whitelists dbConflict 1 2 "junk").2.2.2 (by decide)).2⟩

theorem patchFields_eq (t a g d : Option String) (b : BookRow) :
    patchFields t a g d b =
      { id := b.id,
        title := if truthy t then t.getD b.title else b.title,
        author := if truthy a then a.getD b.author else b.author,
        genre := if truthy g then g.getD b.genre else b.genre,
        description := if truthy d then d else b.description,
        average_rating := b.average_rating } := by
  unfold patchFields
  cases ht : truthy t <;> cases ha : truthy a <;> cases hg : truthy g <;>
    cases hd : truthy d <;> simp

theorem patchFields_id (t a g d : Option String) (b : BookRow) :
    (patchFields t a g d b).id = b.id := by
  rw [patchFields_eq]

/-- C8: Books.patch on an existing book, called by an admin, returns 200 and
overwrites exactly the provided non-empty fields among title, author, genre,
description; the book's id and average_rating and every other book, and the
users/reviews/library tables, are unchanged.  With an absent id it returns
404 and the whole state is unchanged. -/
theorem books_patch_partial_update (db : DB) (uid bid : Nat)
    (t a g d : Option String) (u : UserRow)
    (hu : findUser db uid = some u) (hadmin : u.role = "admin") :
    (getBook db bid = none →
      booksPatch db uid bid t a g d = ("No matching book found", 404, db))
    ∧ (∀ b, getBook db bid = some b →
        (booksPatch db uid bid t a g d).1 = "Book updated successfully"
        ∧ (booksPatch db uid bid t a g d).2.1 = 200
        ∧ getBook (booksPatch db uid bid t a g d).2.2 bid = some
            { id := b.id,
              title := if truthy t then t.getD b.title else b.title,
              author := if truthy a then a.getD b.author else b.author,
              genre := if truthy g then g.getD b.genre else b.genre,
              description := if truthy d then d else b.description,
              average_rating := b.average_rating }
        ∧ (∀ b2 ∈ db.books, b2.id ≠ bid →
             b2 ∈ (booksPatch db uid bid t a g d).2.2.books)
        ∧ (∀ b2 ∈ (booksPatch db uid bid t a g d).2.2.books, b2.id ≠ bid →
             b2 ∈ db.books)
        ∧ (booksPatch db uid bid t a g d).2.2.users = db.users
        ∧ (booksPatch db uid bid t a g d).2.2.reviews = db.reviews
        ∧ (booksPatch db uid bid t a g d).2.2.library = db.library) := by
  have hrole : (u.role != "admin") = false := by simp [hadmin]
  refine ⟨fun hnone => ?_, fun b hb => ?_⟩
  · simp [booksPatch, hu, hrole, hnone]
  · have hres : booksPatch db uid bid t a g d
        = ("Book updated successfully", 200,
           { db with
               books := updateBookRow db.books bid (patchFields t a g d) }) := by
      simp [booksPatch, hu, hrole, hb]
    rw [hres]
    refine ⟨rfl, rfl, ?_, ?_, ?_, rfl, rfl, rfl⟩
    · show getBook
        { db with books := updateBookRow db.books bid (patchFields t a g d) }
        bid = _
      unfold getBook
      rw [find?_updateBookRow _ _ _ (patchFields_id t a g d)]
      unfold getBook at hb
      rw [hb]
      show some (patchFields t a g d b) = _
      rw [patchFields_eq]
    · intro b2 hb2 hne
      exact mem_updateBookRow _ _ _ _ hb2 hne
    · intro b2 hb2 hne
      exact mem_of_mem_updateBookRow _ _ _ (patchFields_id t a g d) _ hb2 hne

/-- Witness for C8 on `dbCascade`: patching book 7 with a new title, no
author, an empty genre and a new description overwrites exactly title and
description; an absent id gives 404 unchanged. -/
theorem books_patch_partial_update_witness :
    booksPatch dbCascade 1 99 (some "New") none none none
      = ("No matching book found", 404, dbCascade)
    ∧ (booksPatch dbCascade 1 7 (some "New Title") none (some "") (some "Z")).2.1
      = 200
    ∧ getBook
        (booksPatch dbCascade 1 7 (some "New Title") none (some "") (some "Z")).2.2 7
      = some { id := 7, title := "New Title", author := "X", genre := "Y",
               description := some "Z", average_rating := 4 } := by
  have h404 := (books_patch_partial_update dbCascade 1 99 (some "New") none none none
    { id := 1, name := "Carol", email := "c@x.com", password := "h",
      role := "admin" } (by decide) rfl).1 (by decide)
  have h := (books_patch_partial_update dbCascade 1 7 (some "New Title") none
    (some "") (some "Z")
    { id := 1, name := "Carol", email := "c@x.com", password := "h",
      role := "admin" } (by decide) rfl).2
    { id := 7, title := "Doomed", author := "X", genre := "Y",
      description := none, average_rating := 4 } (by decide)
  exact ⟨h404, h.2.1, h.2.2.1.trans (by decide)⟩

theorem find?_updateUserRowByEmail (us : List UserRow) (email : String)
    (f : UserRow → UserRow) (hf : ∀ v, (f v).email = v.email) :
    (updateUserRowByEmail us email f).find? (fun v => v.email == email)
      = (us.find? (fun v => v.email == email)).map f := by
  induction us with
  | nil => rfl
  | cons v rest ih =>
    simp only [updateUserRowByEmail]
    by_cases h : (v.email == email) = true
    · have hfv : ((f v).email == email) = true := by rw [hf]; exact h
      rw [if_pos h,
          @List.find?_cons_of_pos _ (fun w => w.email == email) (f v) rest hfv,
          @List.find?_cons_of_pos _ (fun w => w.email == email) v rest h]
      rfl
    · rw [if_neg h,
          @List.find?_cons_of_neg _ (fun w => w.email == email) v
            (updateUserRowByEmail rest email f) h,
          @List.find?_cons_of_neg _ (fun w => w.email == email) v rest h, ih]

theorem mem_updateUserRowByEmail (us : List UserRow) (email : String)
    (f : UserRow → UserRow) (u2 : UserRow) (h2 : u2 ∈ us)
    (hne : u2.email ≠ email) : u2 ∈ updateUserRowByEmail us email f := by
  induction us with
  | nil => cases h2
  | cons v rest ih =>
    simp only [updateUserRowByEmail]
    rcases List.mem_cons.mp h2 with rfl | h2'
    · rw [if_neg (by simpa using hne)]
      exact List.mem_cons_self _ _
    · by_cases h : (v.email == email) = true
      · rw [if_pos h]; exact List.mem_cons_of_mem _ h2'
      · rw [if_neg h]; exact List.mem_cons_of_mem _ (ih h2')

/-- C9: PromoteToAdmin.post with an existing actor: a non-admin actor gets
403, an admin actor with an unmatched target email gets 404, an
already-admin target gets 400 — each with the whole state (so every user's
role) unchanged — and otherwise the target's role becomes admin (the first
user with that email now carries role "admin"; users with other emails and
the other tables are untouched) with status 200. -/
theorem promote_spec (db : DB) (actorId : Nat) (email : String)
    (actor : UserRow) (ha : findUser db actorId = some actor) :
    (actor.role ≠ "admin" →
      promoteToAdmin db actorId email
        = ("You must be an admin to perform this action", 403, db))
    ∧ (actor.role = "admin" →
        db.users.find? (fun v => v.email == email) = none →
        promoteToAdmin db actorId email = ("User not found", 404, db))
    ∧ (∀ target, actor.role = "admin" →
        db.users.find? (fun v => v.email == email) = some target →
        target.role = "admin" →
        promoteToAdmin db actorId email
          = ("This user is already an admin", 400, db))
    ∧ (∀ target, actor.role = "admin" →
        db.users.find? (fun v => v.email == email) = some target →
        target.role ≠ "admin" →
        (promoteToAdmin db actorId email).2.1 = 200
        ∧ (promoteToAdmin db actorId email).2.2.users.find?
            (fun v => v.email == email) = some { target with role := "admin" }
        ∧ (∀ u2 ∈ db.users, u2.email ≠ email →
            u2 ∈ (promoteToAdmin db actorId email).2.2.users)
        ∧ (promoteToAdmin db actorId email).2.2.books = db.books
        ∧ (promoteToAdmin db actorId email).2.2.reviews = db.reviews
        ∧ (promoteToAdmin db actorId email).2.2.library = db.library) := by
  refine ⟨fun hne => ?_, fun hr hn => ?_, fun target hr ht htr => ?_,
          fun target hr ht htr => ?_⟩
  · simp [promoteToAdmin, ha, hne]
  · simp [promoteToAdmin, ha, hr, hn]
  · simp [promoteToAdmin, ha, hr, ht, htr]
  · have hres : promoteToAdmin db actorId email
        = ("User " ++ email ++ " has been promoted to admin", 200,
           { db with
               users := updateUserRowByEmail db.users email
                          (fun v => { v with role := "admin" }) }) := by
      simp [promoteToAdmin, ha, hr, ht, htr]
    rw [hres]
    refine ⟨rfl, ?_, ?_, rfl, rfl, rfl⟩
    · show (updateUserRowByEmail db.users email
          (fun v => { v with role := "admin" })).find?
          (fun v => v.email == email) = _
      rw [find?_updateUserRowByEmail db.users email
            (fun v => { v with role := "admin" }) (fun v => rfl), ht]
      rfl
    · intro u2 h2 hne
      exact mem_updateUserRowByEmail _ _ _ _ h2 hne

/-- Two-user state for the promotion scenarios: Carol is an admin, Dave a
plain user. -/
def dbPromote : DB :=
  { users := [{ id := 1, name := "Carol", email := "c@x.com", password := "h",
                role := "admin" },
              { id := 2, name := "Dave", email := "d@x.com", password := "h",
                role := "user" }],
    books := [], reviews := [], library := [] }

/-- Witness for C9: Dave cannot promote (403), Carol promoting a missing
email gets 404, promoting the already-admin Carol gets 400 — all leaving the
state unchanged — and promoting Dave succeeds with 200 and makes his role
admin. -/
theorem promote_spec_witness :
    promoteToAdmin dbPromote 2 "c@x.com"
      = ("You must be an admin to perform this action", 403, dbPromote)
    ∧ promoteToAdmin dbPromote 1 "nobody@x.com" = ("User not found", 404, dbPromote)
    ∧ promoteToAdmin dbPromote 1 "c@x.com"
      = ("This user is already an admin", 400, dbPromote)
    ∧ (promoteToAdmin dbPromote 1 "d@x.com").2.1 = 200
    ∧ (promoteToAdmin dbPromote 1 "d@x.com").2.2.users.find?
        (fun v => v.email == "d@x.com")
      = some { id := 2, name := "Dave", email := "d@x.com", password := "h",
               role := "admin" } := by
  have hdave := (promote_spec dbPromote 2 "c@x.com"
    { id := 2, name := "Dave", email := "d@x.com", password := "h",
      role := "user" } (by decide)).1 (by decide)
  have h404 := (promote_spec dbPromote 1 "nobody@x.com"
    { id := 1, name := "Carol", email := "c@x.com", password := "h",
      role := "admin" } (by decide)).2.1 rfl (by decide)
  have h400 := (promote_spec dbPromote 1 "c@x.com"
    { id := 1, name := "Carol", email := "c@x.com", password := "h",
      role := "admin" } (by decide)).2.2.1
    { id := 1, name := "Carol", email := "c@x.com", password := "h",
      role := "admin" } rfl (by decide) rfl
  have hok := (promote_spec dbPromote 1 "d@x.com"
    { id := 1, name := "Carol", email := "c@x.com", password := "h",
      role := "admin" } (by decide)).2.2.2
    { id := 2, name := "Dave", email := "d@x.com", password := "h",
      role := "user" } rfl (by decide) (by decide)
  exact ⟨hdave, h404, h400, hok.1, hok.2.1⟩

/-- C10: in both variants of the library status update the status-validity
check precedes the entry-existence check: with a new_status the variant's
whitelist rejects and no library entry for the (user, book) pair, PATCH
fails with Invalid status (400) and the state unchanged — never with 404. -/
theorem patch_checks_status_first (db : DB) (uid bid : Nat) (s : String) :
    (statusValid s = false → findEntry db uid bid = none →
      userLibraryPatch db uid bid s = ("Invalid status", 400, db)
      ∧ (userLibraryPatch db uid bid s).2.1 ≠ 404)
    ∧ (statusValid_v2 s = false → findEntry db uid bid = none →
      userLibraryPatch_v2 db uid bid s = ("Invalid status", 400, db)
      ∧ (userLibraryPatch_v2 db uid bid s).2.1 ≠ 404) := by
  refine ⟨fun hs hn => ?_, fun hs hn => ?_⟩
  · have h : userLibraryPatch db uid bid s = ("Invalid status", 400, db) := by
      simp [userLibraryPatch, hs]
    exact ⟨h, by rw [h]; simp⟩
  · have h : userLibraryPatch_v2 db uid bid s = ("Invalid status", 400, db) := by
      simp [userLibraryPatch_v2, hs]
    exact ⟨h, by rw [h]; simp⟩

/-- Witness for C10: in the empty-library state `dbPromote`, updating the
status of an entry that does not exist to the invalid value "bogus" answers
Invalid status 400 (not 404) in both variants. -/
theorem patch_checks_status_first_witness :
    userLibraryPatch dbPromote 1 1 "bogus" = ("Invalid status", 400, dbPromote)
    ∧ (userLibraryPatch dbPromote 1 1 "bogus").2.1 ≠ 404
    ∧ userLibraryPatch_v2 dbPromote 1 1 "bogus"
      = ("Invalid status", 400, dbPromote)
    ∧ (userLibraryPatch_v2 dbPromote 1 1 "bogus").2.1 ≠ 404 := by
  have h1 := (patch_checks_status_first dbPromote 1 1 "bogus").1 (by decide) rfl
  have h2 := (patch_checks_status_first dbPromote 1 1 "bogus").2 (by decide) rfl
  exact ⟨h1.1, h1.2, h2.1, h2.2⟩
